import Mathlib

/-!
Verification of the ingestion-and-normalization pipeline of the
Global-text-summarizer repository.

The repository contains two near-duplicate application variants:
* `src/app.py`        — embedded below in namespace `App`
* `src/api/index.py`  — embedded below in namespace `Api`

External effects (pdfminer, pdf2image, pytesseract, python-docx, requests,
the Gemini client, the filesystem and the clock) are modelled as oracles
carried in an `Env` record; everything else is translated directly from the
Python source.  Several definitions carry extra *instrumentation* components
(which extractors ran, which OCR language was passed, whether the staged
temporary file was removed); these record which calls the Python code makes
on each path and do not alter the computed values.
-/

/-! ## Models of the Python string primitives used by the source -/

/-- Characters removed by Python's `str.strip()` with no argument
(whitespace; the source only ever produces ASCII whitespace). -/
def pyIsSpace (c : Char) : Bool :=
  c = ' ' || c = '\t' || c = '\n' || c = '\x0d' || c = '\x0b' || c = '\x0c'

/-- Python `s.strip()`: drop leading and trailing whitespace. -/
def pyStrip (s : String) : String :=
  String.mk (((s.toList.dropWhile pyIsSpace).reverse.dropWhile pyIsSpace).reverse)

/-- Python `s.startswith(p)`. -/
def pyStartsWith (s p : String) : Bool :=
  p.toList.isPrefixOf s.toList

/-- Python `s.lower()` (the source only lowercases ASCII filename extensions). -/
def pyLower (s : String) : String :=
  String.mk (s.toList.map Char.toLower)

/-- Python `a or b` where `a` is an optional form field: the default is used
when the field is missing (`None`) or empty (both are falsy). -/
def pyOr (o : Option String) (d : String) : String :=
  match o with
  | none => d
  | some s => if s = "" then d else s

/-- Truthiness of an optional string form field (`None` and `""` are falsy). -/
def strTruthy (o : Option String) : Bool :=
  match o with
  | none => false
  | some s => s ≠ ""

/-- `os.path.splitext(name)[1]` for a bare filename: the suffix starting at
the last dot, except that leading dots of the name are part of the root. -/
def splitext_ext (name : String) : String :=
  let cs := name.toList
  let lead := (cs.takeWhile (fun c => c = '.')).length
  let rest := cs.drop lead
  if rest.contains '.' then
    String.mk ('.' :: ((rest.reverse.takeWhile (fun c => c ≠ '.')).reverse))
  else ""

example : pyStrip "  a b \n" = "a b" := by decide
example : pyStrip "\n" = "" := by decide
example : pyStartsWith "⚠️ Error" "⚠️" = true := by decide
example : pyStartsWith " ⚠️" "⚠️" = false := by decide
example : pyLower ".PDF" = ".pdf" := by decide
example : splitext_ext "a.tar.gz" = ".gz" := by decide
example : splitext_ext ".bashrc" = "" := by decide
example : splitext_ext "notes.TXT" = ".TXT" := by decide
example : splitext_ext "README" = "" := by decide

/-! ## Data model -/

/-- An uploaded file as seen by the dispatcher.  Flask's `FileStorage` is
truthy exactly when its `filename` is non-empty; the blob's bytes are only
ever observed through the extraction oracles in `Env`. -/
structure UploadedFile where
  filename : String
deriving DecidableEq

/-- The truthiness test `if uploaded_file:` on `request.files.get("file")`. -/
def fileTruthy (o : Option UploadedFile) : Bool :=
  match o with
  | none => false
  | some f => f.filename ≠ ""

/-- The request form fields read by `process` (missing field = `none`). -/
structure Request where
  text_input : Option String
  url_input : Option String
  file : Option UploadedFile
  input_lang : Option String
  output_lang : Option String
  summary_length : Option String
  summary_format : Option String
deriving DecidableEq

/-- A history record of `src/app.py` (`summaries_history.append({...})`). -/
structure SummaryRecord where
  timestamp : String
  summary : String
  language : String
  length : String
  format : String
deriving DecidableEq

/-- A history record of `src/api/index.py` (`{"time": ..., "summary": ...}`). -/
structure ApiRecord where
  time : String
  summary : String
deriving DecidableEq

/-- The JSON payload returned by `process` (in `src/api/index.py` the JSON
keys are `summary`, `error`, `history`; the shape is identical). -/
structure Response (ρ : Type) where
  summary : String
  error_msg : String
  history : List ρ
deriving DecidableEq

/-- Which input channel the `if/elif` dispatch chain selected. -/
inductive Channel where
  | file | url | text | noInput
deriving DecidableEq

/-- The extraction routines the code can invoke. -/
inductive Extractor where
  | pdf | docx | txt | image | urlFetch
deriving DecidableEq

/-- The input channel an extraction routine belongs to. -/
def extractorChannel (k : Extractor) : Channel :=
  match k with
  | .pdf | .docx | .txt | .image => .file
  | .urlFetch => .url

deriving instance DecidableEq for Except

/-- A PDF document as observed through pdfminer and pdf2image.
`textLayer` is the result of `pdfminer.high_level.extract_text` (or the
exception it raises); `render` is the full sequence of page images the
document renders to (or a rendering fault) — the code asks pdf2image for
`first_page=1, last_page=1`, i.e. `pages.take 1`. -/
structure PdfSource where
  textLayer : Except String String
  render : Except String (List Nat)
deriving DecidableEq

/-- An image file as observed through `PIL.Image.open` (image id or fault).
`src/app.py` additionally calls `img.thumbnail((1000,1000))`, which rescales
but never crops, so OCR still sees the whole image. -/
structure ImageSource where
  openResult : Except String Nat
deriving DecidableEq

/-- pytesseract's `image_to_string` with no `lang=` argument runs tesseract
with its default language, English. -/
def pytesseractDefaultLang : String := "eng"

/-- Oracles for every external effect the pipeline touches.
`ocr i lang` is `pytesseract.image_to_string` on image `i` with language
`lang`; `txt` is reading the staged `.txt` file as UTF-8 (which can raise,
e.g. on undecodable bytes); `fetch u` bundles `requests.get` +
`raise_for_status` + BeautifulSoup `get_text`; `llm p` is the Gemini call
on prompt `p`. -/
structure Env where
  pdf : PdfSource
  ocr : Nat → String → Except String String
  image : ImageSource
  docx : Except String (List String)
  txt : Except String String
  fetch : String → Except String String
  llm : String → Except String String
  timestamp : String

/-! ## Shared lookup tables -/

/-- `length_map = {"Short": 100, "Medium": 200, "Long": 300}` (both files). -/
def length_map : List (String × Nat) :=
  [("Short", 100), ("Medium", 200), ("Long", 300)]

/-- `ocr_lang_map` of `src/app.py`. -/
def ocr_lang_map : List (String × String) :=
  [("English", "eng"), ("Hindi", "hin"), ("French", "fra"), ("Spanish", "spa"),
   ("German", "deu"), ("Chinese", "chi_sim"), ("Japanese", "jpn")]

/-- `ocr_lang_map.get(input_lang, "eng")`. -/
def toOcrCode (input_lang : String) : String :=
  (List.lookup input_lang ocr_lang_map).getD "eng"

/-- `valid_extensions` of `src/app.py` (the same set guards both variants'
routing; `src/api/index.py` expresses it as the `if/elif` chain itself). -/
def valid_extensions : List String :=
  [".pdf", ".docx", ".txt", ".png", ".jpg", ".jpeg"]

/-! ## Format extractors, `src/app.py` variant -/

namespace App

/-- The OCR accumulation loop of `extract_pdf_text`
(`ocr_text += pytesseract.image_to_string(img, lang=ocr_lang, ...) + "\n"`);
a fault raised by `image_to_string` propagates to the enclosing handler. -/
def ocrLoop (ocr : Nat → String → Except String String) (lang : String) :
    List Nat → String → Except String String
  | [], acc => Except.ok acc
  | i :: rest, acc =>
    match ocr i lang with
    | Except.error e => Except.error e
    | Except.ok s => ocrLoop ocr lang rest (acc ++ s ++ "\n")

/-- `extract_pdf_text` of `src/app.py` (lines 41–54): text layer first, OCR
of the first rendered page as fallback, `"⚠️ No readable text found."` when
both are whitespace-only, `"⚠️ Error extracting PDF text: ..."` on any
caught exception.  The second component records which page images OCR was
invoked on (instrumentation). -/
def extract_pdf_text (src : PdfSource) (ocr : Nat → String → Except String String)
    (ocr_lang : String) : String × List Nat :=
  match src.textLayer with
  | Except.error e => ("⚠️ Error extracting PDF text: " ++ e, [])
  | Except.ok text =>
    if pyStrip text ≠ "" then (text, [])
    else
      match src.render with
      | Except.error e => ("⚠️ Error extracting PDF text: " ++ e, [])
      | Except.ok pages =>
        let images := pages.take 1
        match ocrLoop ocr ocr_lang images "" with
        | Except.error e => ("⚠️ Error extracting PDF text: " ++ e, images)
        | Except.ok t =>
          (if pyStrip t ≠ "" then t else "⚠️ No readable text found.", images)

/-- `extract_docx_text` of `src/app.py` (lines 56–62). -/
def extract_docx_text (doc : Except String (List String)) : String :=
  match doc with
  | Except.error e => "⚠️ Error extracting DOCX: " ++ e
  | Except.ok paras => String.intercalate "\n" paras

/-- `extract_image_text` of `src/app.py` (lines 64–72): OCR over the (whole,
thumbnailed) image with the request's OCR language code, the sentinel
`"⚠️ OCR did not detect any text."` when the output is whitespace-only.
The second component records the language code passed to `image_to_string`
(`none` when OCR was never reached). -/
def extract_image_text (img : ImageSource) (ocr : Nat → String → Except String String)
    (ocr_lang : String) : String × Option String :=
  match img.openResult with
  | Except.error e => ("⚠️ OCR error: " ++ e, none)
  | Except.ok i =>
    match ocr i ocr_lang with
    | Except.error e => ("⚠️ OCR error: " ++ e, some ocr_lang)
    | Except.ok text =>
      (if pyStrip text ≠ "" then text else "⚠️ OCR did not detect any text.",
       some ocr_lang)

end App

/-! ## Format extractors, `src/api/index.py` variant -/

namespace Api

/-- The OCR join of `extract_pdf_text` in `src/api/index.py`
(`"".join(pytesseract.image_to_string(img) for img in images)`): no
language argument (tesseract default) and no separator. -/
def ocrLoop (ocr : Nat → String → Except String String) :
    List Nat → String → Except String String
  | [], acc => Except.ok acc
  | i :: rest, acc =>
    match ocr i pytesseractDefaultLang with
    | Except.error e => Except.error e
    | Except.ok s => ocrLoop ocr rest (acc ++ s)

/-- `extract_pdf_text` of `src/api/index.py` (lines 33–44): text layer
first, OCR of the first rendered page as fallback, `"PDF error: ..."` on a
caught exception.  Note: a whitespace-only OCR result is returned as-is —
there is no `NoTextDetected` sentinel in this variant.  The second
component records which page images OCR was invoked on. -/
def extract_pdf_text (src : PdfSource) (ocr : Nat → String → Except String String) :
    String × List Nat :=
  match src.textLayer with
  | Except.error e => ("PDF error: " ++ e, [])
  | Except.ok text =>
    if pyStrip text ≠ "" then (text, [])
    else
      match src.render with
      | Except.error e => ("PDF error: " ++ e, [])
      | Except.ok pages =>
        let images := pages.take 1
        match ocrLoop ocr images "" with
        | Except.error e => ("PDF error: " ++ e, images)
        | Except.ok t => (t, images)

/-- `extract_docx_text` of `src/api/index.py` (lines 46–52). -/
def extract_docx_text (doc : Except String (List String)) : String :=
  match doc with
  | Except.error e => "DOCX error: " ++ e
  | Except.ok paras => String.intercalate "\n" paras

/-- `extract_image_text` of `src/api/index.py` (lines 54–60):
`pytesseract.image_to_string(img)` with no language argument and no
emptiness check.  The second component records the language tesseract
actually ran with. -/
def extract_image_text (img : ImageSource) (ocr : Nat → String → Except String String) :
    String × Option String :=
  match img.openResult with
  | Except.error e => ("OCR error: " ++ e, none)
  | Except.ok i =>
    match ocr i pytesseractDefaultLang with
    | Except.error e => ("OCR error: " ++ e, some pytesseractDefaultLang)
    | Except.ok text => (text, some pytesseractDefaultLang)

end Api

/-! ## Dispatch and the `process` route -/

/-- The outcome of the input-dispatch section of `process`, together with
instrumentation: `escaped` is an uncaught Python exception leaving the
route, `extracted`/`error_msg` are the local variables of the source,
`extractors` lists the extraction routines invoked, `tempStaged` /
`tempRemoved` track the staged upload on disk, and `imageOcrLang` is the
language code passed to `image_to_string` for an uploaded image. -/
structure DispatchOut where
  escaped : Option String
  extracted : String
  error_msg : String
  channel : Channel
  extractors : List Extractor
  tempStaged : Bool
  tempRemoved : Bool
  imageOcrLang : Option String
deriving DecidableEq

/-- The full observable outcome of one `process` call: the JSON response
(or an exception escaping the route), the history list after the call, and
the dispatch instrumentation plus whether the summarizer was invoked and
which record (if any) was appended. -/
structure ProcOut (ρ : Type) where
  result : Except String (Response ρ)
  history : List ρ
  channel : Channel
  extractors : List Extractor
  tempStaged : Bool
  tempRemoved : Bool
  imageOcrLang : Option String
  summarizerCalled : Bool
  appended : Option ρ
deriving DecidableEq

namespace App

/-- The file branch of `process` in `src/app.py` (lines 105–123): validate
the extension *before* staging; stage to `Uploads/<filename>`, route by
extension, then `os.remove` — with no `try/finally`, so a fault raised
while reading the staged `.txt` file escapes before the removal. -/
def dispatchFile (env : Env) (f : UploadedFile) (ocr_lang : String) : DispatchOut :=
  let file_ext := pyLower (splitext_ext f.filename)
  if file_ext ∉ valid_extensions then
    ⟨none, "", "⚠️ Unsupported file type: " ++ file_ext, .file, [], false, false, none⟩
  else if file_ext = ".pdf" then
    ⟨none, (extract_pdf_text env.pdf env.ocr ocr_lang).1, "", .file, [.pdf],
     true, true, none⟩
  else if file_ext = ".docx" then
    ⟨none, extract_docx_text env.docx, "", .file, [.docx], true, true, none⟩
  else if file_ext = ".txt" then
    match env.txt with
    | Except.ok s => ⟨none, s, "", .file, [.txt], true, true, none⟩
    | Except.error e => ⟨some e, "", "", .file, [.txt], true, false, none⟩
  else if file_ext ∈ [".png", ".jpg", ".jpeg"] then
    ⟨none, (extract_image_text env.image env.ocr ocr_lang).1, "", .file, [.image],
     true, true, (extract_image_text env.image env.ocr ocr_lang).2⟩
  else
    ⟨none, "", "", .file, [], true, true, none⟩

/-- The text branch (`elif text_input:`) of `process` in `src/app.py`. -/
def dispatchText (req : Request) : DispatchOut :=
  match req.text_input with
  | some t =>
    if t ≠ "" then ⟨none, t, "", .text, [], false, false, none⟩
    else ⟨none, "", "", .noInput, [], false, false, none⟩
  | none => ⟨none, "", "", .noInput, [], false, false, none⟩

/-- The URL branch (`elif url_input:`) of `process` in `src/app.py`
(lines 124–132), falling through to the text branch when the URL field is
falsy.  Every fault of the fetch is caught (`except Exception`). -/
def dispatchRest (env : Env) (req : Request) : DispatchOut :=
  match req.url_input with
  | some u =>
    if u ≠ "" then
      match env.fetch u with
      | Except.ok t => ⟨none, t, "", .url, [.urlFetch], false, false, none⟩
      | Except.error e =>
        ⟨none, "", "⚠️ Error fetching URL: " ++ e, .url, [.urlFetch], false, false, none⟩
    else dispatchText req
  | none => dispatchText req

/-- The `if uploaded_file: / elif url_input: / elif text_input:` chain of
`process` in `src/app.py` (lines 104–134).  A `FileStorage` with an empty
filename is falsy, so the chain falls through to the URL test. -/
def dispatch (env : Env) (req : Request) (ocr_lang : String) : DispatchOut :=
  match req.file with
  | some f => if f.filename ≠ "" then dispatchFile env f ocr_lang else dispatchRest env req
  | none => dispatchRest env req

/-- The history update of `src/app.py` (lines 144–152): append, then
`if len(summaries_history) > 5: summaries_history.pop(0)`. -/
def historyAppend {ρ : Type} (h : List ρ) (r : ρ) : List ρ :=
  let h2 := h ++ [r]
  if 5 < h2.length then h2.tail else h2

/-- The Gemini prompt built in `src/app.py` (line 141). -/
def prompt_of (output_lang format_prompt : String) (word_limit : Nat)
    (extracted : String) : String :=
  "Summarize the following text in " ++ output_lang ++ " " ++ format_prompt ++
    ". Keep it concise (~" ++ toString word_limit ++ " words max):\n\n" ++ extracted

/-- The `/process` route of `src/app.py` (lines 79–160). -/
def process (env : Env) (req : Request) (history : List SummaryRecord) :
    ProcOut SummaryRecord :=
  let input_lang := pyOr req.input_lang "English"
  let output_lang := pyOr req.output_lang "English"
  let summary_length := pyOr req.summary_length "Medium"
  let summary_format := pyOr req.summary_format "Paragraph"
  let word_limit := (List.lookup summary_length length_map).getD 200
  let format_prompt :=
    if summary_format = "Paragraph" then "as a paragraph" else "in bullet points"
  let ocr_lang := toOcrCode input_lang
  let d := dispatch env req ocr_lang
  match d.escaped with
  | some e =>
    ⟨Except.error e, history, d.channel, d.extractors, d.tempStaged, d.tempRemoved,
     d.imageOcrLang, false, none⟩
  | none =>
    if pyStrip d.extracted ≠ "" ∧ pyStartsWith d.extracted "⚠️" = false then
      match env.llm (prompt_of output_lang format_prompt word_limit d.extracted) with
      | Except.ok s =>
        let r0 : SummaryRecord := ⟨env.timestamp, s, output_lang, summary_length, summary_format⟩
        let h2 := historyAppend history r0
        ⟨Except.ok ⟨s, d.error_msg, h2⟩, h2, d.channel, d.extractors, d.tempStaged,
         d.tempRemoved, d.imageOcrLang, true, some r0⟩
      | Except.error e =>
        ⟨Except.ok ⟨"", "⚠️ Summarization failed: " ++ e, history⟩, history, d.channel,
         d.extractors, d.tempStaged, d.tempRemoved, d.imageOcrLang, true, none⟩
    else
      ⟨Except.ok ⟨"", d.error_msg, history⟩, history, d.channel, d.extractors,
       d.tempStaged, d.tempRemoved, d.imageOcrLang, false, none⟩

/-- `/clear_history` of `src/app.py` (lines 162–165). -/
def historyClear {ρ : Type} (_h : List ρ) : List ρ := []

end App

namespace Api

/-- The file branch of `process` in `src/api/index.py` (lines 84–103):
stage to a `NamedTemporaryFile` *before* looking at the suffix, route by
suffix inside `try`, and `os.remove` in `finally` — so the staged file is
removed on every exit path, including a fault raised while reading the
staged `.txt` file (the fault still propagates afterwards). -/
def dispatchFile (env : Env) (f : UploadedFile) : DispatchOut :=
  let suffix := pyLower (splitext_ext f.filename)
  if suffix = ".pdf" then
    ⟨none, (extract_pdf_text env.pdf env.ocr).1, "", .file, [.pdf], true, true, none⟩
  else if suffix = ".docx" then
    ⟨none, extract_docx_text env.docx, "", .file, [.docx], true, true, none⟩
  else if suffix ∈ [".png", ".jpg", ".jpeg"] then
    ⟨none, (extract_image_text env.image env.ocr).1, "", .file, [.image],
     true, true, (extract_image_text env.image env.ocr).2⟩
  else if suffix = ".txt" then
    match env.txt with
    | Except.ok s => ⟨none, s, "", .file, [.txt], true, true, none⟩
    | Except.error e => ⟨some e, "", "", .file, [.txt], true, true, none⟩
  else
    ⟨none, "", "Unsupported file type", .file, [], true, true, none⟩

/-- The text and no-input branches of `process` in `src/api/index.py`
(lines 116–120): `else: error = "No input provided"`. -/
def dispatchText (req : Request) : DispatchOut :=
  match req.text_input with
  | some t =>
    if t ≠ "" then ⟨none, t, "", .text, [], false, false, none⟩
    else ⟨none, "", "No input provided", .noInput, [], false, false, none⟩
  | none => ⟨none, "", "No input provided", .noInput, [], false, false, none⟩

/-- The URL branch of `process` in `src/api/index.py` (lines 106–113). -/
def dispatchRest (env : Env) (req : Request) : DispatchOut :=
  match req.url_input with
  | some u =>
    if u ≠ "" then
      match env.fetch u with
      | Except.ok t => ⟨none, t, "", .url, [.urlFetch], false, false, none⟩
      | Except.error e =>
        ⟨none, "", "URL error: " ++ e, .url, [.urlFetch], false, false, none⟩
    else dispatchText req
  | none => dispatchText req

/-- The `if file: / elif url_input: / elif text_input: / else:` chain of
`process` in `src/api/index.py` (lines 84–120). -/
def dispatch (env : Env) (req : Request) : DispatchOut :=
  match req.file with
  | some f => if f.filename ≠ "" then dispatchFile env f else dispatchRest env req
  | none => dispatchRest env req

/-- The history update of `src/api/index.py` (lines 133–139): append, then
`summaries_history[:] = summaries_history[-5:]`. -/
def historyAppend {ρ : Type} (h : List ρ) (r : ρ) : List ρ :=
  let h2 := h ++ [r]
  h2.drop (h2.length - 5)

/-- The Gemini prompt built in `src/api/index.py` (line 127). -/
def prompt_of (output_lang : String) (word_limit : Nat) (extracted : String) : String :=
  "Summarize in " ++ output_lang ++ " within " ++ toString word_limit ++
    " words:\n\n" ++ extracted

/-- The `/process` route of `src/api/index.py` (lines 67–149).  Note the
summarization guard is `if extracted_text and not error:` — truthiness of
the raw string, with no whitespace strip and no sentinel-prefix check. -/
def process (env : Env) (req : Request) (history : List ApiRecord) :
    ProcOut ApiRecord :=
  let output_lang := req.output_lang.getD "English"
  let summary_length := req.summary_length.getD "Medium"
  let word_limit := (List.lookup summary_length length_map).getD 200
  let d := dispatch env req
  match d.escaped with
  | some e =>
    ⟨Except.error e, history, d.channel, d.extractors, d.tempStaged, d.tempRemoved,
     d.imageOcrLang, false, none⟩
  | none =>
    if d.extracted ≠ "" ∧ d.error_msg = "" then
      match env.llm (prompt_of output_lang word_limit d.extracted) with
      | Except.ok s =>
        let r0 : ApiRecord := ⟨env.timestamp, s⟩
        let h2 := historyAppend history r0
        ⟨Except.ok ⟨s, d.error_msg, h2⟩, h2, d.channel, d.extractors, d.tempStaged,
         d.tempRemoved, d.imageOcrLang, true, some r0⟩
      | Except.error e =>
        ⟨Except.ok ⟨"", "Gemini error: " ++ e, history⟩, history, d.channel,
         d.extractors, d.tempStaged, d.tempRemoved, d.imageOcrLang, true, none⟩
    else
      ⟨Except.ok ⟨"", d.error_msg, history⟩, history, d.channel, d.extractors,
       d.tempStaged, d.tempRemoved, d.imageOcrLang, false, none⟩

/-- `/clear` of `src/api/index.py` (lines 151–154). -/
def historyClear {ρ : Type} (_h : List ρ) : List ρ := []

end Api

/-! ## History-buffer lemmas -/

/-- The last `n` elements of a list, in order (`l[-n:]` in Python). -/
def lastN {α : Type} (n : Nat) (l : List α) : List α := l.drop (l.length - n)

lemma lastN_of_length_le {α : Type} {n : Nat} {l : List α} (h : l.length ≤ n) :
    lastN n l = l := by
  unfold lastN
  rw [Nat.sub_eq_zero_of_le h, List.drop_zero]

lemma lastN_length {α : Type} (n : Nat) (l : List α) :
    (lastN n l).length = min l.length n := by
  unfold lastN
  rw [List.length_drop]
  omega

lemma lastN_append_lastN {α : Type} (n : Nat) (xs l : List α) :
    lastN n (lastN n xs ++ l) = lastN n (xs ++ l) := by
  rcases le_or_lt xs.length n with h | h
  · rw [lastN_of_length_le h]
  · unfold lastN
    have hk : xs.length - n ≤ xs.length := Nat.sub_le _ _
    rw [List.length_append, List.length_drop, List.length_append]
    have h1 : xs.length - (xs.length - n) + l.length - n = l.length := by omega
    have h2 : xs.length + l.length - n = (xs.length - n) + l.length := by omega
    rw [h1, h2, ← List.drop_drop, List.drop_append_of_le_length hk]

lemma App.historyAppend_eq_lastN {ρ : Type} (h : List ρ) (r : ρ)
    (hle : h.length ≤ 5) : App.historyAppend h r = lastN 5 (h ++ [r]) := by
  unfold App.historyAppend lastN
  simp only [List.length_append, List.length_cons, List.length_nil]
  split
  · rw [← List.drop_one]
    congr 1
    omega
  · have h0 : h.length + 0 + 1 - 5 = 0 := by omega
    rw [h0, List.drop_zero]

lemma Api.historyAppend_eq_lastN_api {ρ : Type} (h : List ρ) (r : ρ) :
    Api.historyAppend h r = lastN 5 (h ++ [r]) := rfl

lemma App.foldl_historyAppend (l : List ρ) :
    ∀ acc : List ρ, acc.length ≤ 5 →
      l.foldl App.historyAppend acc = lastN 5 (acc ++ l) := by
  induction l with
  | nil =>
    intro acc hle
    rw [List.foldl_nil, List.append_nil, lastN_of_length_le hle]
  | cons r t ih =>
    intro acc hle
    rw [List.foldl_cons, App.historyAppend_eq_lastN acc r hle,
        ih _ (by rw [lastN_length]; omega), lastN_append_lastN]
    congr 1
    simp

lemma Api.foldl_historyAppend_api (l : List ρ) :
    ∀ acc : List ρ, acc.length ≤ 5 →
      l.foldl Api.historyAppend acc = lastN 5 (acc ++ l) := by
  induction l with
  | nil =>
    intro acc hle
    rw [List.foldl_nil, List.append_nil, lastN_of_length_le hle]
  | cons r t ih =>
    intro acc hle
    rw [List.foldl_cons, Api.historyAppend_eq_lastN_api acc r,
        ih _ (by rw [lastN_length]; omega), lastN_append_lastN]
    congr 1
    simp

/-- C3: for every sequence of N appends to an initially empty history
buffer, both variants leave exactly min(N,5) records, namely the last 5
appended records in original relative order (oldest first, FIFO eviction);
a single append never grows a within-capacity buffer beyond 5 records, and
clearing leaves 0. -/
theorem c3_history_fifo_bounded (records : List SummaryRecord) (arecords : List ApiRecord) :
    records.foldl App.historyAppend [] = records.drop (records.length - 5) ∧
    (records.foldl App.historyAppend []).length = min records.length 5 ∧
    arecords.foldl Api.historyAppend [] = arecords.drop (arecords.length - 5) ∧
    (arecords.foldl Api.historyAppend []).length = min arecords.length 5 ∧
    (∀ (h : List SummaryRecord) (r : SummaryRecord), h.length ≤ 5 →
      (App.historyAppend h r).length ≤ 5) ∧
    (∀ (h : List ApiRecord) (r : ApiRecord), (Api.historyAppend h r).length ≤ 5) ∧
    (App.historyClear records).length = 0 ∧
    (Api.historyClear arecords).length = 0 := by
  have happ := App.foldl_historyAppend records [] (by simp)
  have hapi := Api.foldl_historyAppend_api arecords [] (by simp)
  rw [List.nil_append] at happ hapi
  refine ⟨happ, ?_, hapi, ?_, ?_, ?_, rfl, rfl⟩
  · rw [happ]
    show (lastN 5 records).length = _
    rw [lastN_length]
  · rw [hapi]
    show (lastN 5 arecords).length = _
    rw [lastN_length]
  · intro h r hle
    rw [App.historyAppend_eq_lastN h r hle, lastN_length]
    omega
  · intro h r
    rw [Api.historyAppend_eq_lastN_api h r, lastN_length]
    omega

/-- A concrete history record used by the C3 witness. -/
def wRec (i : Nat) : SummaryRecord :=
  ⟨toString i, "summary", "English", "Short", "Paragraph"⟩

/-- Witness for C3: six appends leave the last five, and an append onto a
full buffer stays at capacity. -/
theorem c3_history_fifo_bounded_witness :
    ((List.map wRec [1, 2, 3, 4, 5, 6]).foldl App.historyAppend []
      = List.map wRec [2, 3, 4, 5, 6]) ∧
    (App.historyAppend (List.map wRec [1, 2, 3, 4, 5]) (wRec 6)).length ≤ 5 := by
  have h := c3_history_fifo_bounded (List.map wRec [1, 2, 3, 4, 5, 6]) []
  constructor
  · rw [h.1]
    rfl
  · exact h.2.2.2.2.1 (List.map wRec [1, 2, 3, 4, 5]) (wRec 6) (by rfl)

/-! ## Dispatch characterization -/

/-- Modelled from the spec's priority clause ("file is present → … ; else
url present and non-empty → … ; else text present and non-empty → … ;
else no input"), to be compared with the dispatchers' behaviour. -/
def selectedChannelSpec (req : Request) : Channel :=
  if fileTruthy req.file then .file
  else if strTruthy req.url_input then .url
  else if strTruthy req.text_input then .text
  else .noInput

/-- The format extractor a declared (lowercased) extension routes to;
`none` for unsupported extensions. -/
def extKind (ext : String) : Option Extractor :=
  if ext = ".pdf" then some .pdf
  else if ext = ".docx" then some .docx
  else if ext = ".txt" then some .txt
  else if ext ∈ [".png", ".jpg", ".jpeg"] then some .image
  else none

lemma extKind_eq_none_iff (ext : String) :
    extKind ext = none ↔ ext ∉ valid_extensions := by
  unfold extKind valid_extensions
  split_ifs with h1 h2 h3 h4 <;> simp_all

/-- The exception carried by an `Except`, if any. -/
def exceptErr {ε α : Type} : Except ε α → Option ε
  | Except.error e => some e
  | Except.ok _ => none

lemma App.dispatchFile_spec (env : Env) (f : UploadedFile) (lang : String) :
    (App.dispatchFile env f lang).channel = Channel.file ∧
    (App.dispatchFile env f lang).extractors
      = (extKind (pyLower (splitext_ext f.filename))).toList ∧
    (App.dispatchFile env f lang).tempStaged
      = decide (pyLower (splitext_ext f.filename) ∈ valid_extensions) ∧
    (App.dispatchFile env f lang).tempRemoved
      = ((App.dispatchFile env f lang).tempStaged
          && (App.dispatchFile env f lang).escaped.isNone) ∧
    ((App.dispatchFile env f lang).escaped ≠ none →
      pyLower (splitext_ext f.filename) = ".txt" ∧
      (App.dispatchFile env f lang).escaped = exceptErr env.txt) := by
  simp only [App.dispatchFile]
  split_ifs with h1 h2 h3 h4 h5 <;>
    cases henv : env.txt <;> simp_all [extKind, exceptErr, valid_extensions]

lemma App.dispatchText_eq (req : Request) :
    App.dispatchText req =
      if strTruthy req.text_input then
        ⟨none, req.text_input.getD "", "", .text, [], false, false, none⟩
      else ⟨none, "", "", .noInput, [], false, false, none⟩ := by
  obtain ⟨ti, ui, fo, il, ol, sl, sf⟩ := req
  cases ti <;> simp only [App.dispatchText, strTruthy, Option.getD] <;>
    split_ifs <;> simp_all

lemma App.dispatchRest_eq (env : Env) (req : Request) :
    App.dispatchRest env req =
      if strTruthy req.url_input then
        match env.fetch (req.url_input.getD "") with
        | Except.ok t => ⟨none, t, "", .url, [.urlFetch], false, false, none⟩
        | Except.error e =>
          ⟨none, "", "⚠️ Error fetching URL: " ++ e, .url, [.urlFetch], false, false, none⟩
      else App.dispatchText req := by
  obtain ⟨ti, ui, fo, il, ol, sl, sf⟩ := req
  cases ui <;> simp only [App.dispatchRest, strTruthy, Option.getD] <;>
    split_ifs <;> simp_all [App.dispatchText]

lemma App.dispatch_eq (env : Env) (req : Request) (lang : String) :
    App.dispatch env req lang =
      if fileTruthy req.file then
        App.dispatchFile env (req.file.getD ⟨""⟩) lang
      else App.dispatchRest env req := by
  obtain ⟨ti, ui, fo, il, ol, sl, sf⟩ := req
  cases fo <;> simp only [App.dispatch, fileTruthy, Option.getD] <;>
    split_ifs <;> simp_all [App.dispatchRest]

lemma Api.dispatchText_eq_api (req : Request) :
    Api.dispatchText req =
      if strTruthy req.text_input then
        ⟨none, req.text_input.getD "", "", .text, [], false, false, none⟩
      else ⟨none, "", "No input provided", .noInput, [], false, false, none⟩ := by
  obtain ⟨ti, ui, fo, il, ol, sl, sf⟩ := req
  cases ti <;> simp only [Api.dispatchText, strTruthy, Option.getD] <;>
    split_ifs <;> simp_all

lemma Api.dispatchRest_eq_api (env : Env) (req : Request) :
    Api.dispatchRest env req =
      if strTruthy req.url_input then
        match env.fetch (req.url_input.getD "") with
        | Except.ok t => ⟨none, t, "", .url, [.urlFetch], false, false, none⟩
        | Except.error e =>
          ⟨none, "", "URL error: " ++ e, .url, [.urlFetch], false, false, none⟩
      else Api.dispatchText req := by
  obtain ⟨ti, ui, fo, il, ol, sl, sf⟩ := req
  cases ui <;> simp only [Api.dispatchRest, strTruthy, Option.getD] <;>
    split_ifs <;> simp_all [Api.dispatchText]

lemma Api.dispatch_eq_api (env : Env) (req : Request) :
    Api.dispatch env req =
      if fileTruthy req.file then
        Api.dispatchFile env (req.file.getD ⟨""⟩)
      else Api.dispatchRest env req := by
  obtain ⟨ti, ui, fo, il, ol, sl, sf⟩ := req
  cases fo <;> simp only [Api.dispatch, fileTruthy, Option.getD] <;>
    split_ifs <;> simp_all [Api.dispatchRest]

lemma Api.dispatchFile_spec_api (env : Env) (f : UploadedFile) :
    (Api.dispatchFile env f).channel = Channel.file ∧
    (Api.dispatchFile env f).extractors
      = (extKind (pyLower (splitext_ext f.filename))).toList ∧
    (Api.dispatchFile env f).tempStaged = true ∧
    (Api.dispatchFile env f).tempRemoved = true ∧
    ((Api.dispatchFile env f).escaped ≠ none →
      pyLower (splitext_ext f.filename) = ".txt" ∧
      (Api.dispatchFile env f).escaped = exceptErr env.txt) := by
  simp only [Api.dispatchFile]
  split_ifs with h1 h2 h3 h4 <;>
    (try (simp only [List.mem_cons, List.not_mem_nil, or_false] at h3
          rcases h3 with h3 | h3 | h3)) <;>
    cases henv : env.txt <;> simp_all [extKind, exceptErr, valid_extensions]

/-- The OCR language code `src/app.py` computes for the request. -/
def appOcrLang (req : Request) : String :=
  toOcrCode (pyOr req.input_lang "English")

lemma App.process_fields (env : Env) (req : Request) (history : List SummaryRecord) :
    (App.process env req history).channel = (App.dispatch env req (appOcrLang req)).channel ∧
    (App.process env req history).extractors = (App.dispatch env req (appOcrLang req)).extractors ∧
    (App.process env req history).tempStaged = (App.dispatch env req (appOcrLang req)).tempStaged ∧
    (App.process env req history).tempRemoved = (App.dispatch env req (appOcrLang req)).tempRemoved ∧
    (App.process env req history).imageOcrLang = (App.dispatch env req (appOcrLang req)).imageOcrLang := by
  simp only [App.process, appOcrLang]
  repeat' split
  all_goals exact ⟨rfl, rfl, rfl, rfl, rfl⟩

lemma Api.process_fields_api (env : Env) (req : Request) (history : List ApiRecord) :
    (Api.process env req history).channel = (Api.dispatch env req).channel ∧
    (Api.process env req history).extractors = (Api.dispatch env req).extractors ∧
    (Api.process env req history).tempStaged = (Api.dispatch env req).tempStaged ∧
    (Api.process env req history).tempRemoved = (Api.dispatch env req).tempRemoved ∧
    (Api.process env req history).imageOcrLang = (Api.dispatch env req).imageOcrLang := by
  simp only [Api.process]
  repeat' split
  all_goals exact ⟨rfl, rfl, rfl, rfl, rfl⟩

lemma App.process_escaped_eq (env : Env) (req : Request) (history : List SummaryRecord)
    (e : String) (h : (App.dispatch env req (appOcrLang req)).escaped = some e) :
    App.process env req history =
      ⟨Except.error e, history, (App.dispatch env req (appOcrLang req)).channel,
       (App.dispatch env req (appOcrLang req)).extractors,
       (App.dispatch env req (appOcrLang req)).tempStaged,
       (App.dispatch env req (appOcrLang req)).tempRemoved,
       (App.dispatch env req (appOcrLang req)).imageOcrLang, false, none⟩ := by
  simp only [appOcrLang] at h ⊢
  simp only [App.process, h]

lemma App.process_skip_eq (env : Env) (req : Request) (history : List SummaryRecord)
    (h : (App.dispatch env req (appOcrLang req)).escaped = none)
    (hc : ¬(pyStrip (App.dispatch env req (appOcrLang req)).extracted ≠ "" ∧
            pyStartsWith (App.dispatch env req (appOcrLang req)).extracted "⚠️" = false)) :
    App.process env req history =
      ⟨Except.ok ⟨"", (App.dispatch env req (appOcrLang req)).error_msg, history⟩, history,
       (App.dispatch env req (appOcrLang req)).channel,
       (App.dispatch env req (appOcrLang req)).extractors,
       (App.dispatch env req (appOcrLang req)).tempStaged,
       (App.dispatch env req (appOcrLang req)).tempRemoved,
       (App.dispatch env req (appOcrLang req)).imageOcrLang, false, none⟩ := by
  simp only [appOcrLang] at h hc ⊢
  simp only [App.process, h, if_neg hc]

lemma App.process_llm_eq (env : Env) (req : Request) (history : List SummaryRecord)
    (h : (App.dispatch env req (appOcrLang req)).escaped = none)
    (hc : pyStrip (App.dispatch env req (appOcrLang req)).extracted ≠ "" ∧
          pyStartsWith (App.dispatch env req (appOcrLang req)).extracted "⚠️" = false) :
    App.process env req history =
      match env.llm (App.prompt_of (pyOr req.output_lang "English")
          (if pyOr req.summary_format "Paragraph" = "Paragraph" then "as a paragraph"
           else "in bullet points")
          ((List.lookup (pyOr req.summary_length "Medium") length_map).getD 200)
          (App.dispatch env req (appOcrLang req)).extracted) with
      | Except.ok s =>
        ⟨Except.ok ⟨s, (App.dispatch env req (appOcrLang req)).error_msg,
           App.historyAppend history
             ⟨env.timestamp, s, pyOr req.output_lang "English",
              pyOr req.summary_length "Medium", pyOr req.summary_format "Paragraph"⟩⟩,
         App.historyAppend history
           ⟨env.timestamp, s, pyOr req.output_lang "English",
            pyOr req.summary_length "Medium", pyOr req.summary_format "Paragraph"⟩,
         (App.dispatch env req (appOcrLang req)).channel,
         (App.dispatch env req (appOcrLang req)).extractors,
         (App.dispatch env req (appOcrLang req)).tempStaged,
         (App.dispatch env req (appOcrLang req)).tempRemoved,
         (App.dispatch env req (appOcrLang req)).imageOcrLang, true,
         some ⟨env.timestamp, s, pyOr req.output_lang "English",
               pyOr req.summary_length "Medium", pyOr req.summary_format "Paragraph"⟩⟩
      | Except.error e =>
        ⟨Except.ok ⟨"", "⚠️ Summarization failed: " ++ e, history⟩, history,
         (App.dispatch env req (appOcrLang req)).channel,
         (App.dispatch env req (appOcrLang req)).extractors,
         (App.dispatch env req (appOcrLang req)).tempStaged,
         (App.dispatch env req (appOcrLang req)).tempRemoved,
         (App.dispatch env req (appOcrLang req)).imageOcrLang, true, none⟩ := by
  simp only [appOcrLang] at h hc
  simp only [App.process, h, if_pos hc, appOcrLang]

lemma Api.process_escaped_eq_api (env : Env) (req : Request) (history : List ApiRecord)
    (e : String) (h : (Api.dispatch env req).escaped = some e) :
    Api.process env req history =
      ⟨Except.error e, history, (Api.dispatch env req).channel,
       (Api.dispatch env req).extractors, (Api.dispatch env req).tempStaged,
       (Api.dispatch env req).tempRemoved, (Api.dispatch env req).imageOcrLang,
       false, none⟩ := by
  simp only [Api.process, h]

lemma Api.process_skip_eq_api (env : Env) (req : Request) (history : List ApiRecord)
    (h : (Api.dispatch env req).escaped = none)
    (hc : ¬((Api.dispatch env req).extracted ≠ "" ∧ (Api.dispatch env req).error_msg = "")) :
    Api.process env req history =
      ⟨Except.ok ⟨"", (Api.dispatch env req).error_msg, history⟩, history,
       (Api.dispatch env req).channel, (Api.dispatch env req).extractors,
       (Api.dispatch env req).tempStaged, (Api.dispatch env req).tempRemoved,
       (Api.dispatch env req).imageOcrLang, false, none⟩ := by
  simp only [Api.process, h, if_neg hc]

lemma Api.process_llm_eq_api (env : Env) (req : Request) (history : List ApiRecord)
    (h : (Api.dispatch env req).escaped = none)
    (hc : (Api.dispatch env req).extracted ≠ "" ∧ (Api.dispatch env req).error_msg = "") :
    Api.process env req history =
      match env.llm (Api.prompt_of (req.output_lang.getD "English")
          ((List.lookup (req.summary_length.getD "Medium") length_map).getD 200)
          (Api.dispatch env req).extracted) with
      | Except.ok s =>
        ⟨Except.ok ⟨s, (Api.dispatch env req).error_msg,
           Api.historyAppend history ⟨env.timestamp, s⟩⟩,
         Api.historyAppend history ⟨env.timestamp, s⟩,
         (Api.dispatch env req).channel, (Api.dispatch env req).extractors,
         (Api.dispatch env req).tempStaged, (Api.dispatch env req).tempRemoved,
         (Api.dispatch env req).imageOcrLang, true, some ⟨env.timestamp, s⟩⟩
      | Except.error e =>
        ⟨Except.ok ⟨"", "Gemini error: " ++ e, history⟩, history,
         (Api.dispatch env req).channel, (Api.dispatch env req).extractors,
         (Api.dispatch env req).tempStaged, (Api.dispatch env req).tempRemoved,
         (Api.dispatch env req).imageOcrLang, true, none⟩ := by
  simp only [Api.process, h, if_pos hc]

/-! ## Small string facts -/

lemma pyStrip_empty : pyStrip "" = "" := rfl

lemma ne_empty_of_pyStrip_ne_empty {t : String} (h : pyStrip t ≠ "") : t ≠ "" := by
  intro hc
  subst hc
  exact h pyStrip_empty

lemma append_left_ne_empty (a b : String) (h : a ≠ "") : a ++ b ≠ "" := by
  intro hc
  apply h
  have hlen := congrArg String.length hc
  rw [String.length_append] at hlen
  have : a.length = 0 := by
    have : ("" : String).length = 0 := rfl
    omega
  cases a with
  | mk l =>
    cases l with
    | nil => rfl
    | cons c cs => simp [String.length] at this

/-! ## Branch equations for the file dispatcher -/

lemma App.dispatchFile_unsupported (env : Env) (f : UploadedFile) (lang : String)
    (hx : pyLower (splitext_ext f.filename) ∉ valid_extensions) :
    App.dispatchFile env f lang =
      ⟨none, "", "⚠️ Unsupported file type: " ++ pyLower (splitext_ext f.filename),
       .file, [], false, false, none⟩ := by
  simp only [App.dispatchFile]
  rw [if_pos hx]

lemma Api.dispatchFile_unsupported_api (env : Env) (f : UploadedFile)
    (hx : pyLower (splitext_ext f.filename) ∉ valid_extensions) :
    Api.dispatchFile env f =
      ⟨none, "", "Unsupported file type", .file, [], true, true, none⟩ := by
  simp only [valid_extensions, List.mem_cons, List.not_mem_nil, or_false, not_or] at hx
  obtain ⟨h1, h2, h3, h4, h5, h6⟩ := hx
  simp [Api.dispatchFile, h1, h2, h3, h4, h5, h6]

lemma App.dispatchFile_pdf (env : Env) (f : UploadedFile) (lang : String)
    (hx : pyLower (splitext_ext f.filename) = ".pdf") :
    App.dispatchFile env f lang =
      ⟨none, (App.extract_pdf_text env.pdf env.ocr lang).1, "", .file, [.pdf],
       true, true, none⟩ := by
  simp [App.dispatchFile, hx, valid_extensions]

lemma Api.dispatchFile_pdf_api (env : Env) (f : UploadedFile)
    (hx : pyLower (splitext_ext f.filename) = ".pdf") :
    Api.dispatchFile env f =
      ⟨none, (Api.extract_pdf_text env.pdf env.ocr).1, "", .file, [.pdf],
       true, true, none⟩ := by
  simp [Api.dispatchFile, hx]

lemma App.dispatchFile_image (env : Env) (f : UploadedFile) (lang : String)
    (hx : pyLower (splitext_ext f.filename) ∈ [".png", ".jpg", ".jpeg"]) :
    App.dispatchFile env f lang =
      ⟨none, (App.extract_image_text env.image env.ocr lang).1, "", .file, [.image],
       true, true, (App.extract_image_text env.image env.ocr lang).2⟩ := by
  simp only [List.mem_cons, List.not_mem_nil, or_false] at hx
  rcases hx with hx | hx | hx <;> simp [App.dispatchFile, hx, valid_extensions]

lemma Api.dispatchFile_image_api (env : Env) (f : UploadedFile)
    (hx : pyLower (splitext_ext f.filename) ∈ [".png", ".jpg", ".jpeg"]) :
    Api.dispatchFile env f =
      ⟨none, (Api.extract_image_text env.image env.ocr).1, "", .file, [.image],
       true, true, (Api.extract_image_text env.image env.ocr).2⟩ := by
  simp only [List.mem_cons, List.not_mem_nil, or_false] at hx
  rcases hx with hx | hx | hx <;> simp [Api.dispatchFile, hx]

lemma App.dispatchFile_txt_err (env : Env) (f : UploadedFile) (lang : String) (e : String)
    (hx : pyLower (splitext_ext f.filename) = ".txt") (he : env.txt = Except.error e) :
    App.dispatchFile env f lang =
      ⟨some e, "", "", .file, [.txt], true, false, none⟩ := by
  simp [App.dispatchFile, hx, he, valid_extensions]

lemma Api.dispatchFile_txt_err_api (env : Env) (f : UploadedFile) (e : String)
    (hx : pyLower (splitext_ext f.filename) = ".txt") (he : env.txt = Except.error e) :
    Api.dispatchFile env f =
      ⟨some e, "", "", .file, [.txt], true, true, none⟩ := by
  simp [Api.dispatchFile, hx, he]

/-! ## Dispatch-level facts shared by the claims -/

lemma App.dispatch_channel (env : Env) (req : Request) (lang : String) :
    (App.dispatch env req lang).channel = selectedChannelSpec req := by
  rw [App.dispatch_eq, selectedChannelSpec]
  split_ifs with hf hu ht
  · exact (App.dispatchFile_spec env _ lang).1
  · rw [App.dispatchRest_eq, if_pos hu]
    split <;> rfl
  · rw [App.dispatchRest_eq, if_neg (by simp [hu]), App.dispatchText_eq, if_pos ht]
  · rw [App.dispatchRest_eq, if_neg (by simp [hu]), App.dispatchText_eq,
        if_neg (by simp [ht])]

lemma Api.dispatch_channel_api (env : Env) (req : Request) :
    (Api.dispatch env req).channel = selectedChannelSpec req := by
  rw [Api.dispatch_eq_api, selectedChannelSpec]
  split_ifs with hf hu ht
  · exact (Api.dispatchFile_spec_api env _).1
  · rw [Api.dispatchRest_eq_api, if_pos hu]
    split <;> rfl
  · rw [Api.dispatchRest_eq_api, if_neg (by simp [hu]), Api.dispatchText_eq_api, if_pos ht]
  · rw [Api.dispatchRest_eq_api, if_neg (by simp [hu]), Api.dispatchText_eq_api,
        if_neg (by simp [ht])]

lemma extKind_mem_channel (ext : String) (k : Extractor)
    (h : k ∈ (extKind ext).toList) : extractorChannel k = Channel.file := by
  unfold extKind at h
  split_ifs at h <;> simp_all [extractorChannel]

lemma extKind_toList_length (ext : String) : (extKind ext).toList.length ≤ 1 := by
  unfold extKind
  split_ifs <;> simp

lemma App.dispatch_extractors (env : Env) (req : Request) (lang : String) :
    (∀ k ∈ (App.dispatch env req lang).extractors,
       extractorChannel k = (App.dispatch env req lang).channel) ∧
    (App.dispatch env req lang).extractors.length ≤ 1 := by
  rw [App.dispatch_eq]
  split_ifs with hf
  · rw [(App.dispatchFile_spec env _ lang).2.1, (App.dispatchFile_spec env _ lang).1]
    exact ⟨fun k hk => extKind_mem_channel _ k hk, extKind_toList_length _⟩
  · rw [App.dispatchRest_eq]
    split_ifs with hu
    · split <;> simp [extractorChannel]
    · rw [App.dispatchText_eq]
      split_ifs <;> simp

lemma Api.dispatch_extractors_api (env : Env) (req : Request) :
    (∀ k ∈ (Api.dispatch env req).extractors,
       extractorChannel k = (Api.dispatch env req).channel) ∧
    (Api.dispatch env req).extractors.length ≤ 1 := by
  rw [Api.dispatch_eq_api]
  split_ifs with hf
  · rw [(Api.dispatchFile_spec_api env _).2.1, (Api.dispatchFile_spec_api env _).1]
    exact ⟨fun k hk => extKind_mem_channel _ k hk, extKind_toList_length _⟩
  · rw [Api.dispatchRest_eq_api]
    split_ifs with hu
    · split <;> simp [extractorChannel]
    · rw [Api.dispatchText_eq_api]
      split_ifs <;> simp

lemma App.dispatch_temp (env : Env) (req : Request) (lang : String) :
    (App.dispatch env req lang).tempRemoved
      = ((App.dispatch env req lang).tempStaged
          && (App.dispatch env req lang).escaped.isNone) ∧
    ((App.dispatch env req lang).escaped ≠ none →
      (App.dispatch env req lang).tempStaged = true) := by
  rw [App.dispatch_eq]
  split_ifs with hf
  · refine ⟨(App.dispatchFile_spec env _ lang).2.2.2.1, fun he => ?_⟩
    have hx := ((App.dispatchFile_spec env _ lang).2.2.2.2 he).1
    rw [(App.dispatchFile_spec env _ lang).2.2.1, hx]
    simp [valid_extensions]
  · rw [App.dispatchRest_eq]
    split_ifs with hu
    · split <;> simp
    · rw [App.dispatchText_eq]
      split_ifs <;> simp

lemma Api.dispatch_temp_api (env : Env) (req : Request) :
    (Api.dispatch env req).tempRemoved = (Api.dispatch env req).tempStaged := by
  rw [Api.dispatch_eq_api]
  split_ifs with hf
  · rw [(Api.dispatchFile_spec_api env _).2.2.1, (Api.dispatchFile_spec_api env _).2.2.2.1]
  · rw [Api.dispatchRest_eq_api]
    split_ifs with hu
    · split <;> rfl
    · rw [Api.dispatchText_eq_api]
      split_ifs <;> rfl

lemma App.dispatchFile_error_msg (env : Env) (f : UploadedFile) (lang : String) :
    (App.dispatchFile env f lang).error_msg = ""
      ∨ (App.dispatchFile env f lang).extracted = "" := by
  simp only [App.dispatchFile]
  split_ifs <;> cases henv : env.txt <;> simp_all

lemma App.dispatch_error_msg (env : Env) (req : Request) (lang : String) :
    (App.dispatch env req lang).error_msg = ""
      ∨ (App.dispatch env req lang).extracted = "" := by
  rw [App.dispatch_eq]
  split_ifs with hf
  · exact App.dispatchFile_error_msg env _ lang
  · rw [App.dispatchRest_eq]
    split_ifs with hu
    · split <;> simp
    · rw [App.dispatchText_eq]
      split_ifs <;> simp

lemma App.dispatch_nonfile_escaped (env : Env) (req : Request) (lang : String)
    (hf : fileTruthy req.file = false) :
    (App.dispatch env req lang).escaped = none ∧
    (App.dispatch env req lang).tempStaged = false := by
  rw [App.dispatch_eq, if_neg (by simp [hf])]
  rw [App.dispatchRest_eq]
  split_ifs with hu
  · split <;> simp
  · rw [App.dispatchText_eq]
    split_ifs <;> simp

lemma Api.dispatch_nonfile_escaped_api (env : Env) (req : Request)
    (hf : fileTruthy req.file = false) :
    (Api.dispatch env req).escaped = none ∧
    (Api.dispatch env req).tempStaged = false := by
  rw [Api.dispatch_eq_api, if_neg (by simp [hf])]
  rw [Api.dispatchRest_eq_api]
  split_ifs with hu
  · split <;> simp
  · rw [Api.dispatchText_eq_api]
    split_ifs <;> simp

/-! ## Claim theorems -/

/-- C2: in both variants, exactly one input channel is selected by strict
first-match priority (file, else non-empty URL, else non-empty text, else
no input); a request with a file is routed by its declared extension; and
no request ever invokes extraction routines of more than one channel, nor
more than one extraction routine at all — in particular no second channel
is attempted after the selected one fails. -/
theorem c2_dispatch_priority (env : Env) (req : Request)
    (h : List SummaryRecord) (ha : List ApiRecord) :
    (App.process env req h).channel = selectedChannelSpec req ∧
    (Api.process env req ha).channel = selectedChannelSpec req ∧
    (∀ k ∈ (App.process env req h).extractors,
       extractorChannel k = (App.process env req h).channel) ∧
    (∀ k ∈ (Api.process env req ha).extractors,
       extractorChannel k = (Api.process env req ha).channel) ∧
    (App.process env req h).extractors.length ≤ 1 ∧
    (Api.process env req ha).extractors.length ≤ 1 ∧
    (∀ f, req.file = some f → f.filename ≠ "" →
      (App.process env req h).extractors
        = (extKind (pyLower (splitext_ext f.filename))).toList ∧
      (Api.process env req ha).extractors
        = (extKind (pyLower (splitext_ext f.filename))).toList) := by
  obtain ⟨hc, he, _, _, _⟩ := App.process_fields env req h
  obtain ⟨hc2, he2, _, _, _⟩ := Api.process_fields_api env req ha
  refine ⟨?_, ?_, ?_, ?_, ?_, ?_, ?_⟩
  · rw [hc, App.dispatch_channel]
  · rw [hc2, Api.dispatch_channel_api]
  · rw [hc, he]
    exact (App.dispatch_extractors env req (appOcrLang req)).1
  · rw [hc2, he2]
    exact (Api.dispatch_extractors_api env req).1
  · rw [he]
    exact (App.dispatch_extractors env req (appOcrLang req)).2
  · rw [he2]
    exact (Api.dispatch_extractors_api env req).2
  · intro f hf hn
    have hft : fileTruthy req.file = true := by simp [fileTruthy, hf, hn]
    constructor
    · rw [he, App.dispatch_eq, if_pos hft, hf]
      exact (App.dispatchFile_spec env f (appOcrLang req)).2.1
    · rw [he2, Api.dispatch_eq_api, if_pos hft, hf]
      exact (Api.dispatchFile_spec_api env f).2.1

/-- Witness for C2 at a concrete request carrying a PDF file together with
an (ignored) URL and text field. -/
theorem c2_dispatch_priority_witness :
    (App.process
        ⟨⟨Except.ok "body", Except.ok [0]⟩, fun _ _ => Except.ok "", ⟨Except.ok 0⟩,
         Except.ok [], Except.ok "", fun _ => Except.ok "", fun _ => Except.error "off", "t"⟩
        ⟨some "hello", some "http://x", some ⟨"doc.pdf"⟩, none, none, none, none⟩
        []).channel = Channel.file ∧
    (App.process
        ⟨⟨Except.ok "body", Except.ok [0]⟩, fun _ _ => Except.ok "", ⟨Except.ok 0⟩,
         Except.ok [], Except.ok "", fun _ => Except.ok "", fun _ => Except.error "off", "t"⟩
        ⟨some "hello", some "http://x", some ⟨"doc.pdf"⟩, none, none, none, none⟩
        []).extractors = [Extractor.pdf] := by
  have h := c2_dispatch_priority
    ⟨⟨Except.ok "body", Except.ok [0]⟩, fun _ _ => Except.ok "", ⟨Except.ok 0⟩,
     Except.ok [], Except.ok "", fun _ => Except.ok "", fun _ => Except.error "off", "t"⟩
    ⟨some "hello", some "http://x", some ⟨"doc.pdf"⟩, none, none, none, none⟩
    [] []
  refine ⟨?_, ?_⟩
  · rw [h.1]
    decide
  · rw [(h.2.2.2.2.2.2 ⟨"doc.pdf"⟩ rfl (by decide)).1]
    decide

lemma App.process_history_cases (env : Env) (req : Request) (h : List SummaryRecord) :
    ((App.process env req h).appended = none ∧ (App.process env req h).history = h ∧
      ((∃ e, (App.process env req h).result = Except.error e) ∨
       (∃ msg, (App.process env req h).result = Except.ok ⟨"", msg, h⟩))) ∨
    (∃ r0, (App.process env req h).appended = some r0 ∧
      (App.process env req h).history = App.historyAppend h r0 ∧
      (App.process env req h).result
        = Except.ok ⟨r0.summary, "", App.historyAppend h r0⟩) := by
  rcases hd : (App.dispatch env req (appOcrLang req)).escaped with _ | e
  · by_cases hc : (pyStrip (App.dispatch env req (appOcrLang req)).extracted ≠ "" ∧
        pyStartsWith (App.dispatch env req (appOcrLang req)).extracted "⚠️" = false)
    · have hmsg : (App.dispatch env req (appOcrLang req)).error_msg = "" := by
        rcases App.dispatch_error_msg env req (appOcrLang req) with hm | hm
        · exact hm
        · exact absurd pyStrip_empty (by rw [hm] at hc; exact hc.1)
      rw [App.process_llm_eq env req h hd hc]
      split
      · right
        exact ⟨_, rfl, rfl, by rw [hmsg]⟩
      · left
        exact ⟨rfl, rfl, Or.inr ⟨_, rfl⟩⟩
    · rw [App.process_skip_eq env req h hd hc]
      left
      exact ⟨rfl, rfl, Or.inr ⟨_, rfl⟩⟩
  · rw [App.process_escaped_eq env req h e hd]
    left
    exact ⟨rfl, rfl, Or.inl ⟨e, rfl⟩⟩

lemma Api.process_history_cases_api (env : Env) (req : Request) (h : List ApiRecord) :
    ((Api.process env req h).appended = none ∧ (Api.process env req h).history = h ∧
      ((∃ e, (Api.process env req h).result = Except.error e) ∨
       (∃ msg, (Api.process env req h).result = Except.ok ⟨"", msg, h⟩))) ∨
    (∃ r0, (Api.process env req h).appended = some r0 ∧
      (Api.process env req h).history = Api.historyAppend h r0 ∧
      (Api.process env req h).result
        = Except.ok ⟨r0.summary, "", Api.historyAppend h r0⟩) := by
  rcases hd : (Api.dispatch env req).escaped with _ | e
  · by_cases hc : ((Api.dispatch env req).extracted ≠ "" ∧
        (Api.dispatch env req).error_msg = "")
    · rw [Api.process_llm_eq_api env req h hd hc]
      split
      · right
        exact ⟨_, rfl, rfl, by rw [hc.2]⟩
      · left
        exact ⟨rfl, rfl, Or.inr ⟨_, rfl⟩⟩
    · rw [Api.process_skip_eq_api env req h hd hc]
      left
      exact ⟨rfl, rfl, Or.inr ⟨_, rfl⟩⟩
  · rw [Api.process_escaped_eq_api env req h e hd]
    left
    exact ⟨rfl, rfl, Or.inl ⟨e, rfl⟩⟩

/-- C5: in both variants, any request whose outcome is a failure — an
uncaught fault escaping the route, or a response carrying a non-empty
error message — leaves the history buffer exactly as it was; a record is
appended if and only if summarization succeeded, and then the response is
that record's summary with an empty error. -/
theorem c5_history_unchanged_on_failure (env : Env) (req : Request)
    (h : List SummaryRecord) (ha : List ApiRecord) :
    (∀ e, (App.process env req h).result = Except.error e →
       (App.process env req h).history = h ∧ (App.process env req h).appended = none) ∧
    (∀ r, (App.process env req h).result = Except.ok r → r.error_msg ≠ "" →
       (App.process env req h).history = h ∧ r.history = h ∧
       (App.process env req h).appended = none) ∧
    ((App.process env req h).appended = none → (App.process env req h).history = h) ∧
    (∀ r0, (App.process env req h).appended = some r0 →
       (App.process env req h).history = App.historyAppend h r0 ∧
       (App.process env req h).result
         = Except.ok ⟨r0.summary, "", App.historyAppend h r0⟩) ∧
    (∀ e, (Api.process env req ha).result = Except.error e →
       (Api.process env req ha).history = ha ∧ (Api.process env req ha).appended = none) ∧
    (∀ r, (Api.process env req ha).result = Except.ok r → r.error_msg ≠ "" →
       (Api.process env req ha).history = ha ∧ r.history = ha ∧
       (Api.process env req ha).appended = none) ∧
    ((Api.process env req ha).appended = none → (Api.process env req ha).history = ha) ∧
    (∀ r0, (Api.process env req ha).appended = some r0 →
       (Api.process env req ha).history = Api.historyAppend ha r0 ∧
       (Api.process env req ha).result
         = Except.ok ⟨r0.summary, "", Api.historyAppend ha r0⟩) := by
  refine ⟨?_, ?_, ?_, ?_, ?_, ?_, ?_, ?_⟩
  · intro e hr
    rcases App.process_history_cases env req h with ⟨hap, hh, _⟩ | ⟨r0, hap, hh, hres⟩
    · exact ⟨hh, hap⟩
    · rw [hres] at hr
      cases hr
  · intro r hr hne
    rcases App.process_history_cases env req h with ⟨hap, hh, hres⟩ | ⟨r0, hap, hh, hres⟩
    · rcases hres with ⟨e, he⟩ | ⟨msg, he⟩ <;> rw [he] at hr
      · cases hr
      · cases hr
        exact ⟨hh, rfl, hap⟩
    · rw [hres] at hr
      cases hr
      exact absurd rfl hne
  · intro hnone
    rcases App.process_history_cases env req h with ⟨_, hh, _⟩ | ⟨r0, hap, _, _⟩
    · exact hh
    · rw [hap] at hnone
      cases hnone
  · intro r0 hsome
    rcases App.process_history_cases env req h with ⟨hap, _, _⟩ | ⟨r1, hap, hh, hres⟩
    · rw [hap] at hsome
      cases hsome
    · rw [hap] at hsome
      cases hsome
      exact ⟨hh, hres⟩
  · intro e hr
    rcases Api.process_history_cases_api env req ha with ⟨hap, hh, _⟩ | ⟨r0, hap, hh, hres⟩
    · exact ⟨hh, hap⟩
    · rw [hres] at hr
      cases hr
  · intro r hr hne
    rcases Api.process_history_cases_api env req ha with ⟨hap, hh, hres⟩ | ⟨r0, hap, hh, hres⟩
    · rcases hres with ⟨e, he⟩ | ⟨msg, he⟩ <;> rw [he] at hr
      · cases hr
      · cases hr
        exact ⟨hh, rfl, hap⟩
    · rw [hres] at hr
      cases hr
      exact absurd rfl hne
  · intro hnone
    rcases Api.process_history_cases_api env req ha with ⟨_, hh, _⟩ | ⟨r0, hap, _, _⟩
    · exact hh
    · rw [hap] at hnone
      cases hnone
  · intro r0 hsome
    rcases Api.process_history_cases_api env req ha with ⟨hap, _, _⟩ | ⟨r1, hap, hh, hres⟩
    · rw [hap] at hsome
      cases hsome
    · rw [hap] at hsome
      cases hsome
      exact ⟨hh, hres⟩

/-- A concrete environment whose summarizer is unreachable. -/
def envNoLLM : Env :=
  ⟨⟨Except.ok "", Except.ok [0]⟩, fun _ _ => Except.ok "", ⟨Except.ok 0⟩,
   Except.ok [], Except.ok "", fun _ => Except.ok "", fun _ => Except.error "down", "t"⟩

/-- A request with no input channel supplied at all. -/
def reqEmpty : Request := ⟨none, none, none, none, none, none, none⟩

/-- Witness for C5: an input-less request leaves a non-empty history of
both variants untouched. -/
theorem c5_history_unchanged_on_failure_witness :
    (App.process envNoLLM reqEmpty [⟨"t0", "s0", "English", "Short", "Paragraph"⟩]).history
      = [⟨"t0", "s0", "English", "Short", "Paragraph"⟩] ∧
    (Api.process envNoLLM reqEmpty [⟨"t0", "s0"⟩]).history = [⟨"t0", "s0"⟩] := by
  have h := c5_history_unchanged_on_failure envNoLLM reqEmpty
    [⟨"t0", "s0", "English", "Short", "Paragraph"⟩] [⟨"t0", "s0"⟩]
  exact ⟨h.2.2.1 (by decide),
    (h.2.2.2.2.2.1 ⟨"", "No input provided", [⟨"t0", "s0"⟩]⟩ (by decide) (by decide)).1⟩

/-- Counterexample to C6 as stated: in `src/app.py` a request with no file,
no URL and no text yields a response whose error field is *empty* — no
`NoInput` failure is surfaced to the caller (the `if/elif` chain simply has
no `else`). -/
theorem c6_no_input_counterexample :
    (App.process envNoLLM reqEmpty []).channel = Channel.noInput ∧
    (App.process envNoLLM reqEmpty []).result = Except.ok ⟨"", "", []⟩ := by
  decide

/-- C6 amended: for an input-less request, the `src/api/index.py` variant
surfaces the error "No input provided" (capitalised, unlike the spec's
quoted message) with an empty summary, while the `src/app.py` variant
surfaces no failure at all: its response carries an empty summary and an
empty error message. -/
theorem c6_no_input_amended (env : Env) (req : Request)
    (h : List SummaryRecord) (ha : List ApiRecord)
    (hf : fileTruthy req.file = false) (hu : strTruthy req.url_input = false)
    (ht : strTruthy req.text_input = false) :
    (Api.process env req ha).result = Except.ok ⟨"", "No input provided", ha⟩ ∧
    (App.process env req h).result = Except.ok ⟨"", "", h⟩ := by
  have hdApi : Api.dispatch env req
      = ⟨none, "", "No input provided", .noInput, [], false, false, none⟩ := by
    rw [Api.dispatch_eq_api, if_neg (by simp [hf]), Api.dispatchRest_eq_api,
        if_neg (by simp [hu]), Api.dispatchText_eq_api, if_neg (by simp [ht])]
  have hdApp : App.dispatch env req (appOcrLang req)
      = ⟨none, "", "", .noInput, [], false, false, none⟩ := by
    rw [App.dispatch_eq, if_neg (by simp [hf]), App.dispatchRest_eq,
        if_neg (by simp [hu]), App.dispatchText_eq, if_neg (by simp [ht])]
  constructor
  · rw [Api.process_skip_eq_api env req ha (by rw [hdApi]) (by rw [hdApi]; simp), hdApi]
  · rw [App.process_skip_eq env req h (by rw [hdApp])
        (by rw [hdApp]; simp [pyStrip_empty]), hdApp]

/-- Witness for the amended C6 at the concrete input-less request. -/
theorem c6_no_input_amended_witness :
    (Api.process envNoLLM reqEmpty []).result = Except.ok ⟨"", "No input provided", []⟩ ∧
    (App.process envNoLLM reqEmpty []).result = Except.ok ⟨"", "", []⟩ := by
  exact c6_no_input_amended envNoLLM reqEmpty [] [] (by decide) (by decide) (by decide)

lemma App.process_result_ok_of_escaped_none (env : Env) (req : Request)
    (h : List SummaryRecord)
    (hd : (App.dispatch env req (appOcrLang req)).escaped = none) :
    ∃ r, (App.process env req h).result = Except.ok r := by
  by_cases hc : (pyStrip (App.dispatch env req (appOcrLang req)).extracted ≠ "" ∧
      pyStartsWith (App.dispatch env req (appOcrLang req)).extracted "⚠️" = false)
  · rw [App.process_llm_eq env req h hd hc]
    split <;> exact ⟨_, rfl⟩
  · rw [App.process_skip_eq env req h hd hc]
    exact ⟨_, rfl⟩

/-- A text file whose staged copy cannot be decoded as UTF-8. -/
def envTxtFault : Env :=
  ⟨⟨Except.ok "", Except.ok [0]⟩, fun _ _ => Except.ok "", ⟨Except.ok 0⟩,
   Except.ok [], Except.error "invalid utf-8", fun _ => Except.ok "",
   fun _ => Except.error "down", "t"⟩

/-- A request uploading a `.txt` file. -/
def reqTxtFile : Request := ⟨none, none, some ⟨"notes.txt"⟩, none, none, none, none⟩

/-- Counterexample to C7 as stated: in `src/app.py` there is no
`try/finally` around the staged upload, so a fault raised while reading
the staged `.txt` file escapes the route before `os.remove` — the staged
file stays on disk. -/
theorem c7_temp_file_counterexample :
    (App.process envTxtFault reqTxtFile []).tempStaged = true ∧
    (App.process envTxtFault reqTxtFile []).tempRemoved = false ∧
    (App.process envTxtFault reqTxtFile []).result = Except.error "invalid utf-8" := by
  decide

/-- C7 amended: in `src/api/index.py` the staged file is removed on every
exit path (the removal sits in `finally`); in `src/app.py` it is removed
on every path on which the route returns a response, but a fault raised
while reading or processing the staged file escapes the route and leaves
the staged file on disk. -/
theorem c7_temp_file_amended (env : Env) (req : Request)
    (h : List SummaryRecord) (ha : List ApiRecord) :
    ((Api.process env req ha).tempRemoved = (Api.process env req ha).tempStaged) ∧
    (∀ r, (App.process env req h).result = Except.ok r →
      (App.process env req h).tempRemoved = (App.process env req h).tempStaged) ∧
    (∀ e, (App.process env req h).result = Except.error e →
      (App.process env req h).tempStaged = true ∧
      (App.process env req h).tempRemoved = false) := by
  obtain ⟨_, _, hs2, hr2, _⟩ := Api.process_fields_api env req ha
  obtain ⟨_, _, hs, hr, _⟩ := App.process_fields env req h
  refine ⟨?_, ?_, ?_⟩
  · rw [hs2, hr2, Api.dispatch_temp_api]
  · intro r hres
    rcases hd : (App.dispatch env req (appOcrLang req)).escaped with _ | e
    · rw [hs, hr, (App.dispatch_temp env req (appOcrLang req)).1, hd]
      simp
    · rw [App.process_escaped_eq env req h e hd] at hres
      cases hres
  · intro e hres
    rcases hd : (App.dispatch env req (appOcrLang req)).escaped with _ | e2
    · obtain ⟨r, hok⟩ := App.process_result_ok_of_escaped_none env req h hd
      rw [hok] at hres
      cases hres
    · have hstag : (App.dispatch env req (appOcrLang req)).tempStaged = true :=
        (App.dispatch_temp env req (appOcrLang req)).2 (by rw [hd]; simp)
      refine ⟨by rw [hs, hstag], ?_⟩
      rw [hr, (App.dispatch_temp env req (appOcrLang req)).1, hd, hstag]
      rfl

/-- Witness for the amended C7: the api variant removes the staged file
even when reading it faults; the app variant leaves it behind there. -/
theorem c7_temp_file_amended_witness :
    (Api.process envTxtFault reqTxtFile []).tempRemoved
      = (Api.process envTxtFault reqTxtFile []).tempStaged ∧
    (App.process envTxtFault reqTxtFile []).tempStaged = true ∧
    (App.process envTxtFault reqTxtFile []).tempRemoved = false := by
  have h := c7_temp_file_amended envTxtFault reqTxtFile [] []
  exact ⟨h.1, h.2.2 "invalid utf-8" (by decide)⟩

/-- C8: in both variants, a file whose declared (lowercased) extension is
outside {.pdf, .docx, .txt, .png, .jpg, .jpeg} yields the unsupported-type
failure with a non-empty message, no format extractor is invoked, the
history is untouched, and no temporary artifact remains on disk afterwards
(`src/app.py` never stages the file; `src/api/index.py` stages it first
but its `finally` always removes it). -/
theorem c8_unsupported_extension (env : Env) (req : Request)
    (h : List SummaryRecord) (ha : List ApiRecord) (f : UploadedFile)
    (hf : req.file = some f) (hn : f.filename ≠ "")
    (hx : pyLower (splitext_ext f.filename) ∉ valid_extensions) :
    (App.process env req h).result
      = Except.ok ⟨"", "⚠️ Unsupported file type: " ++ pyLower (splitext_ext f.filename), h⟩ ∧
    "⚠️ Unsupported file type: " ++ pyLower (splitext_ext f.filename) ≠ "" ∧
    (App.process env req h).extractors = [] ∧
    (App.process env req h).tempStaged = false ∧
    (App.process env req h).history = h ∧
    (Api.process env req ha).result = Except.ok ⟨"", "Unsupported file type", ha⟩ ∧
    (Api.process env req ha).extractors = [] ∧
    (Api.process env req ha).tempStaged = true ∧
    (Api.process env req ha).tempRemoved = true ∧
    (Api.process env req ha).history = ha := by
  have hft : fileTruthy req.file = true := by simp [fileTruthy, hf, hn]
  have hdApp : App.dispatch env req (appOcrLang req)
      = ⟨none, "", "⚠️ Unsupported file type: " ++ pyLower (splitext_ext f.filename),
         .file, [], false, false, none⟩ := by
    rw [App.dispatch_eq, if_pos hft, hf]
    exact App.dispatchFile_unsupported env f _ hx
  have hdApi : Api.dispatch env req
      = ⟨none, "", "Unsupported file type", .file, [], true, true, none⟩ := by
    rw [Api.dispatch_eq_api, if_pos hft, hf]
    exact Api.dispatchFile_unsupported_api env f hx
  have hproc := App.process_skip_eq env req h (by rw [hdApp])
    (by rw [hdApp]; simp [pyStrip_empty])
  rw [hdApp] at hproc
  have hproc2 := Api.process_skip_eq_api env req ha (by rw [hdApi]) (by rw [hdApi]; simp)
  rw [hdApi] at hproc2
  exact ⟨by rw [hproc], append_left_ne_empty _ _ (by decide), by rw [hproc],
    by rw [hproc], by rw [hproc], by rw [hproc2], by rw [hproc2], by rw [hproc2],
    by rw [hproc2], by rw [hproc2]⟩

/-- Witness for C8 at a concrete `.exe` upload. -/
theorem c8_unsupported_extension_witness :
    (App.process envNoLLM ⟨none, none, some ⟨"malware.exe"⟩, none, none, none, none⟩ []).result
      = Except.ok ⟨"", "⚠️ Unsupported file type: .exe", []⟩ ∧
    (App.process envNoLLM ⟨none, none, some ⟨"malware.exe"⟩, none, none, none, none⟩ []).tempStaged
      = false ∧
    (Api.process envNoLLM ⟨none, none, some ⟨"malware.exe"⟩, none, none, none, none⟩ []).result
      = Except.ok ⟨"", "Unsupported file type", []⟩ ∧
    (Api.process envNoLLM ⟨none, none, some ⟨"malware.exe"⟩, none, none, none, none⟩ []).tempRemoved
      = true := by
  have h := c8_unsupported_extension envNoLLM
    ⟨none, none, some ⟨"malware.exe"⟩, none, none, none, none⟩ [] []
    ⟨"malware.exe"⟩ rfl (by decide) (by decide)
  refine ⟨?_, h.2.2.2.1, h.2.2.2.2.2.1, h.2.2.2.2.2.2.2.2.1⟩
  rw [h.1]
  decide

lemma pyStrip_newline : pyStrip "\n" = "" := by decide

/-- Modelled from the spec: the set of page images OCR must run over —
none when the text layer has usable text (or the text layer / rendering
faulted), and exactly the first rendered page otherwise, regardless of
page count. -/
def ocrFallbackPagesSpec (src : PdfSource) : List Nat :=
  match src.textLayer with
  | Except.error _ => []
  | Except.ok t =>
    if pyStrip t = "" then
      match src.render with
      | Except.error _ => []
      | Except.ok pages => pages.take 1
    else []

/-- C1 amended: in both variants, the text layer is attempted first and
OCR runs if and only if it is empty or whitespace-only — and then on
exactly the first rendered page, regardless of page count.  When both
tiers yield nothing, `src/app.py` returns the `NoTextDetected` sentinel
`"⚠️ No readable text found."`, but `src/api/index.py` returns the empty
string: an empty non-failure rather than `Failure(NoTextDetected, …)`. -/
theorem c1_pdf_two_tier_amended (src : PdfSource)
    (ocr : Nat → String → Except String String) (lang : String) :
    (App.extract_pdf_text src ocr lang).2 = ocrFallbackPagesSpec src ∧
    (Api.extract_pdf_text src ocr).2 = ocrFallbackPagesSpec src ∧
    (∀ t pages, src.textLayer = Except.ok t → pyStrip t = "" →
      src.render = Except.ok pages →
      (∀ p ∈ pages.take 1, ∀ l, ocr p l = Except.ok "") →
      (App.extract_pdf_text src ocr lang).1 = "⚠️ No readable text found." ∧
      (Api.extract_pdf_text src ocr).1 = "") := by
  obtain ⟨tl, rd⟩ := src
  refine ⟨?_, ?_, ?_⟩
  · cases tl with
    | error e => rfl
    | ok t =>
      simp only [App.extract_pdf_text, ocrFallbackPagesSpec]
      by_cases hst : pyStrip t = ""
      · rw [if_neg (by simp [hst]), if_pos hst]
        cases rd with
        | error e => rfl
        | ok pages =>
          simp only []
          split <;> rfl
      · rw [if_pos hst, if_neg hst]
  · cases tl with
    | error e => rfl
    | ok t =>
      simp only [Api.extract_pdf_text, ocrFallbackPagesSpec]
      by_cases hst : pyStrip t = ""
      · rw [if_neg (by simp [hst]), if_pos hst]
        cases rd with
        | error e => rfl
        | ok pages =>
          simp only []
          split <;> rfl
      · rw [if_pos hst, if_neg hst]
  · intro t pages htl hst hrd hocr
    simp only at htl hrd
    subst htl
    subst hrd
    cases pages with
    | nil =>
      constructor
      · simp [App.extract_pdf_text, App.ocrLoop, hst, pyStrip_empty]
      · simp [Api.extract_pdf_text, Api.ocrLoop, hst, pyStrip_empty]
    | cons p ps =>
      have h1 : ocr p lang = Except.ok "" := hocr p (by simp) lang
      have h2 : ocr p pytesseractDefaultLang = Except.ok "" :=
        hocr p (by simp) pytesseractDefaultLang
      have hnl : pyStrip (("" : String) ++ "" ++ "\n") = "" := by decide
      constructor
      · simp [App.extract_pdf_text, App.ocrLoop, hst, h1, hnl, pyStrip_newline]
      · simp [Api.extract_pdf_text, Api.ocrLoop, hst, h2]

/-- A PDF whose text layer and first-page OCR are both empty. -/
def pdfEmptyBoth : PdfSource := ⟨Except.ok "", Except.ok [0]⟩

/-- An OCR engine that finds no text in any image. -/
def ocrBlank : Nat → String → Except String String := fun _ _ => Except.ok ""

/-- A request uploading a `.pdf` file. -/
def reqPdfFile : Request := ⟨none, none, some ⟨"scan.pdf"⟩, none, none, none, none⟩

/-- An environment holding `pdfEmptyBoth` behind the pdf oracles. -/
def envPdfEmpty : Env :=
  ⟨pdfEmptyBoth, ocrBlank, ⟨Except.ok 0⟩, Except.ok [], Except.ok "",
   fun _ => Except.ok "", fun _ => Except.error "down", "t"⟩

/-- Counterexample to C1 as stated: in `src/api/index.py`, when the text
layer is empty and first-page OCR also finds nothing, the extractor
returns the empty string (OCR did run on page 1), and the route answers
with an empty summary and an *empty* error — an empty success rather than
`Failure(NoTextDetected, …)`. -/
theorem c1_pdf_counterexample :
    (Api.extract_pdf_text pdfEmptyBoth ocrBlank).1 = "" ∧
    (Api.extract_pdf_text pdfEmptyBoth ocrBlank).2 = [0] ∧
    (Api.process envPdfEmpty reqPdfFile []).result = Except.ok ⟨"", "", []⟩ := by
  decide

/-- Witness for the amended C1: on `pdfEmptyBoth`, `src/app.py` produces
the `NoTextDetected` sentinel after OCR of exactly the first page. -/
theorem c1_pdf_two_tier_amended_witness :
    (App.extract_pdf_text pdfEmptyBoth ocrBlank "eng").1
      = "⚠️ No readable text found." ∧
    (App.extract_pdf_text pdfEmptyBoth ocrBlank "eng").2 = [0] := by
  have h := c1_pdf_two_tier_amended pdfEmptyBoth ocrBlank "eng"
  refine ⟨(h.2.2 "" [0] rfl rfl rfl (fun p hp l => rfl)).1, ?_⟩
  rw [h.1]
  decide

/-- C9 amended: `src/app.py` runs image OCR with the request's OCR
language code and returns the `NoTextDetected` sentinel
`"⚠️ OCR did not detect any text."` when OCR output is empty or
whitespace-only; `src/api/index.py` runs image OCR with the engine's
default language (`"eng"`), ignoring the request's language, and returns
the OCR output unchanged — an empty output becomes an empty non-failure. -/
theorem c9_image_ocr_amended (img : ImageSource)
    (ocr : Nat → String → Except String String) (lang : String) :
    ((App.extract_image_text img ocr lang).2
       = match img.openResult with
         | Except.ok _ => some lang
         | Except.error _ => none) ∧
    ((Api.extract_image_text img ocr).2
       = match img.openResult with
         | Except.ok _ => some pytesseractDefaultLang
         | Except.error _ => none) ∧
    (∀ i s, img.openResult = Except.ok i → ocr i lang = Except.ok s →
       pyStrip s = "" →
       (App.extract_image_text img ocr lang).1 = "⚠️ OCR did not detect any text.") ∧
    (∀ i s, img.openResult = Except.ok i → ocr i pytesseractDefaultLang = Except.ok s →
       (Api.extract_image_text img ocr).1 = s) := by
  obtain ⟨op⟩ := img
  refine ⟨?_, ?_, ?_, ?_⟩
  · cases op with
    | error e => rfl
    | ok i =>
      simp only [App.extract_image_text]
      split <;> rfl
  · cases op with
    | error e => rfl
    | ok i =>
      simp only [Api.extract_image_text]
      split <;> rfl
  · intro i s hop hocr hst
    simp only at hop
    subst hop
    simp [App.extract_image_text, hocr, hst]
  · intro i s hop hocr
    simp only at hop
    subst hop
    simp [Api.extract_image_text, hocr]

/-- An OCR engine that only recognises text when run in Hindi. -/
def ocrLangSensitive : Nat → String → Except String String :=
  fun _ l => if l = "hin" then Except.ok "नमस्ते" else Except.ok ""

/-- A request uploading a `.png` with the input language set to Hindi. -/
def reqPngHindi : Request :=
  ⟨none, none, some ⟨"scan.png"⟩, some "Hindi", none, none, none⟩

/-- An environment holding `ocrLangSensitive` behind the OCR oracle. -/
def envPngHindi : Env :=
  ⟨⟨Except.ok "", Except.ok [0]⟩, ocrLangSensitive, ⟨Except.ok 0⟩, Except.ok [],
   Except.ok "", fun _ => Except.ok "", fun _ => Except.error "down", "t"⟩

/-- Counterexample to C9 as stated: for a PNG upload with input language
Hindi (request OCR code "hin"), `src/api/index.py` invokes OCR with the
engine default "eng" instead, and the resulting empty OCR output is
surfaced as an empty success (empty summary, empty error) rather than
`Failure(NoTextDetected, …)`; `src/app.py` on the same request does pass
"hin". -/
theorem c9_image_ocr_counterexample :
    toOcrCode "Hindi" = "hin" ∧
    (Api.process envPngHindi reqPngHindi []).imageOcrLang = some "eng" ∧
    ("eng" : String) ≠ "hin" ∧
    (Api.process envPngHindi reqPngHindi []).result = Except.ok ⟨"", "", []⟩ ∧
    (App.process envPngHindi reqPngHindi []).imageOcrLang = some "hin" := by
  decide

/-- Witness for the amended C9 at a concrete image and blank OCR engine. -/
theorem c9_image_ocr_amended_witness :
    (App.extract_image_text ⟨Except.ok 0⟩ ocrBlank "hin").1
      = "⚠️ OCR did not detect any text." ∧
    (Api.extract_image_text ⟨Except.ok 0⟩ ocrBlank).1 = "" := by
  have h := c9_image_ocr_amended ⟨Except.ok 0⟩ ocrBlank "hin"
  exact ⟨h.2.2.1 0 "" rfl rfl rfl, h.2.2.2 0 "" rfl rfl⟩

/-- C10: in `src/app.py`, literal user text that is non-whitespace but
begins with the sentinel prefix "⚠️" is classified as a failure by the
downstream sentinel-prefix check: summarization is skipped, no history
record is appended, and the response carries an empty summary *and* an
empty error message. -/
theorem c10_sentinel_prefix_swallows_text (env : Env) (req : Request)
    (h : List SummaryRecord) (t : String)
    (hf : fileTruthy req.file = false) (hu : strTruthy req.url_input = false)
    (ht : req.text_input = some t) (hs : pyStrip t ≠ "")
    (hw : pyStartsWith t "⚠️" = true) :
    (App.process env req h).result = Except.ok ⟨"", "", h⟩ ∧
    (App.process env req h).history = h ∧
    (App.process env req h).summarizerCalled = false ∧
    (App.process env req h).appended = none := by
  have htne : t ≠ "" := ne_empty_of_pyStrip_ne_empty hs
  have hd : App.dispatch env req (appOcrLang req)
      = ⟨none, t, "", .text, [], false, false, none⟩ := by
    rw [App.dispatch_eq, if_neg (by simp [hf]), App.dispatchRest_eq,
        if_neg (by simp [hu]), App.dispatchText_eq,
        if_pos (by simp [strTruthy, ht, htne])]
    simp [ht]
  have hskip := App.process_skip_eq env req h (by rw [hd]) (by rw [hd]; simp [hw])
  rw [hd] at hskip
  exact ⟨by rw [hskip], by rw [hskip], by rw [hskip], by rw [hskip]⟩

/-- Witness for C10 at the concrete text "⚠️ caution ahead". -/
theorem c10_sentinel_prefix_swallows_text_witness :
    (App.process envNoLLM ⟨some "⚠️ caution ahead", none, none, none, none, none, none⟩
        []).result = Except.ok ⟨"", "", []⟩ ∧
    (App.process envNoLLM ⟨some "⚠️ caution ahead", none, none, none, none, none, none⟩
        []).summarizerCalled = false := by
  have h := c10_sentinel_prefix_swallows_text envNoLLM
    ⟨some "⚠️ caution ahead", none, none, none, none, none, none⟩ []
    "⚠️ caution ahead" (by decide) (by decide) rfl (by decide) (by decide)
  exact ⟨h.1, h.2.2.1⟩

/-- A PDF whose pdfminer text-layer extraction raises an exception. -/
def envPdfFault : Env :=
  ⟨⟨Except.error "boom", Except.ok [0]⟩, ocrBlank, ⟨Except.ok 0⟩, Except.ok [],
   Except.ok "", fun _ => Except.ok "", fun _ => Except.error "down", "t"⟩

/-- Counterexample to C4 as stated: in `src/app.py`, a PDF whose
extraction fails produces the sentinel-marked extraction failure
(`"⚠️ …"`), yet the route's response carries an *empty* summary and an
*empty* error message — the terminal extraction failure is silently
swallowed by the sentinel-prefix check. -/
theorem c4_failure_reporting_counterexample :
    pyStartsWith (App.extract_pdf_text ⟨Except.error "boom", Except.ok [0]⟩
        ocrBlank "eng").1 "⚠️" = true ∧
    (App.process envPdfFault reqPdfFile []).result = Except.ok ⟨"", "", []⟩ := by
  decide

/-- C4 amended: dispatch-level failures (unsupported file type, URL fetch
error) and summarization failures carry non-empty error messages in both
variants; but extraction-stage failures do not reach the caller: in
`src/app.py` a sentinel-marked ("⚠️"-prefixed) extraction result yields a
response with empty summary and empty error, and in `src/api/index.py` an
empty extraction result likewise yields empty summary and empty error. -/
theorem c4_failure_reporting_amended (env : Env) (req : Request)
    (h : List SummaryRecord) (ha : List ApiRecord) :
    (∀ f, req.file = some f → f.filename ≠ "" →
       pyLower (splitext_ext f.filename) ∉ valid_extensions →
       (∃ r, (App.process env req h).result = Except.ok r ∧ r.error_msg ≠ "") ∧
       (∃ r, (Api.process env req ha).result = Except.ok r ∧ r.error_msg ≠ "")) ∧
    (∀ u e, fileTruthy req.file = false → req.url_input = some u → u ≠ "" →
       env.fetch u = Except.error e →
       (App.process env req h).result
         = Except.ok ⟨"", "⚠️ Error fetching URL: " ++ e, h⟩ ∧
       "⚠️ Error fetching URL: " ++ e ≠ "" ∧
       (Api.process env req ha).result = Except.ok ⟨"", "URL error: " ++ e, ha⟩ ∧
       "URL error: " ++ e ≠ "") ∧
    (∀ t e, fileTruthy req.file = false → strTruthy req.url_input = false →
       req.text_input = some t → pyStrip t ≠ "" → pyStartsWith t "⚠️" = false →
       (∀ p, env.llm p = Except.error e) →
       (App.process env req h).result
         = Except.ok ⟨"", "⚠️ Summarization failed: " ++ e, h⟩ ∧
       "⚠️ Summarization failed: " ++ e ≠ "" ∧
       (Api.process env req ha).result = Except.ok ⟨"", "Gemini error: " ++ e, ha⟩ ∧
       "Gemini error: " ++ e ≠ "") ∧
    (∀ f, req.file = some f → f.filename ≠ "" →
       pyLower (splitext_ext f.filename) = ".pdf" →
       pyStartsWith (App.extract_pdf_text env.pdf env.ocr (appOcrLang req)).1 "⚠️" = true →
       (App.process env req h).result = Except.ok ⟨"", "", h⟩) ∧
    (∀ f, req.file = some f → f.filename ≠ "" →
       pyLower (splitext_ext f.filename) = ".pdf" →
       (Api.extract_pdf_text env.pdf env.ocr).1 = "" →
       (Api.process env req ha).result = Except.ok ⟨"", "", ha⟩) := by
  refine ⟨?_, ?_, ?_, ?_, ?_⟩
  · intro f hf hn hx
    have hft : fileTruthy req.file = true := by simp [fileTruthy, hf, hn]
    have hdApp : App.dispatch env req (appOcrLang req)
        = ⟨none, "", "⚠️ Unsupported file type: " ++ pyLower (splitext_ext f.filename),
           .file, [], false, false, none⟩ := by
      rw [App.dispatch_eq, if_pos hft, hf]
      exact App.dispatchFile_unsupported env f _ hx
    have hdApi : Api.dispatch env req
        = ⟨none, "", "Unsupported file type", .file, [], true, true, none⟩ := by
      rw [Api.dispatch_eq_api, if_pos hft, hf]
      exact Api.dispatchFile_unsupported_api env f hx
    have hp := App.process_skip_eq env req h (by rw [hdApp])
      (by rw [hdApp]; simp [pyStrip_empty])
    rw [hdApp] at hp
    have hp2 := Api.process_skip_eq_api env req ha (by rw [hdApi]) (by rw [hdApi]; simp)
    rw [hdApi] at hp2
    refine ⟨⟨⟨"", "⚠️ Unsupported file type: " ++ pyLower (splitext_ext f.filename), h⟩,
             by rw [hp], append_left_ne_empty _ _ (by decide)⟩,
           ⟨⟨"", "Unsupported file type", ha⟩, by rw [hp2], by simp⟩⟩
  · intro u e hf hueq hune hfetch
    have hdApp : App.dispatch env req (appOcrLang req)
        = ⟨none, "", "⚠️ Error fetching URL: " ++ e, .url, [.urlFetch],
           false, false, none⟩ := by
      rw [App.dispatch_eq, if_neg (by simp [hf]), App.dispatchRest_eq,
          if_pos (by simp [strTruthy, hueq, hune])]
      simp [hueq, hfetch]
    have hdApi : Api.dispatch env req
        = ⟨none, "", "URL error: " ++ e, .url, [.urlFetch], false, false, none⟩ := by
      rw [Api.dispatch_eq_api, if_neg (by simp [hf]), Api.dispatchRest_eq_api,
          if_pos (by simp [strTruthy, hueq, hune])]
      simp [hueq, hfetch]
    have hp := App.process_skip_eq env req h (by rw [hdApp])
      (by rw [hdApp]; simp [pyStrip_empty])
    rw [hdApp] at hp
    have hp2 := Api.process_skip_eq_api env req ha (by rw [hdApi]) (by rw [hdApi]; simp)
    rw [hdApi] at hp2
    exact ⟨by rw [hp], append_left_ne_empty _ _ (by decide), by rw [hp2],
           append_left_ne_empty _ _ (by decide)⟩
  · intro t e hf hu ht hs hw hllm
    have htne : t ≠ "" := ne_empty_of_pyStrip_ne_empty hs
    have hdApp : App.dispatch env req (appOcrLang req)
        = ⟨none, t, "", .text, [], false, false, none⟩ := by
      rw [App.dispatch_eq, if_neg (by simp [hf]), App.dispatchRest_eq,
          if_neg (by simp [hu]), App.dispatchText_eq,
          if_pos (by simp [strTruthy, ht, htne])]
      simp [ht]
    have hdApi : Api.dispatch env req
        = ⟨none, t, "", .text, [], false, false, none⟩ := by
      rw [Api.dispatch_eq_api, if_neg (by simp [hf]), Api.dispatchRest_eq_api,
          if_neg (by simp [hu]), Api.dispatchText_eq_api,
          if_pos (by simp [strTruthy, ht, htne])]
      simp [ht]
    have hp := App.process_llm_eq env req h (by rw [hdApp])
      (by rw [hdApp]; exact ⟨hs, hw⟩)
    rw [hdApp, hllm] at hp
    have hp2 := Api.process_llm_eq_api env req ha (by rw [hdApi])
      (by rw [hdApi]; exact ⟨htne, rfl⟩)
    rw [hdApi, hllm] at hp2
    exact ⟨by rw [hp], append_left_ne_empty _ _ (by decide), by rw [hp2],
           append_left_ne_empty _ _ (by decide)⟩
  · intro f hf hn hpdf hw
    have hft : fileTruthy req.file = true := by simp [fileTruthy, hf, hn]
    have hdApp : App.dispatch env req (appOcrLang req)
        = ⟨none, (App.extract_pdf_text env.pdf env.ocr (appOcrLang req)).1, "",
           .file, [.pdf], true, true, none⟩ := by
      rw [App.dispatch_eq, if_pos hft, hf]
      exact App.dispatchFile_pdf env f _ hpdf
    have hp := App.process_skip_eq env req h (by rw [hdApp]) (by rw [hdApp]; simp [hw])
    rw [hdApp] at hp
    rw [hp]
  · intro f hf hn hpdf hext
    have hft : fileTruthy req.file = true := by simp [fileTruthy, hf, hn]
    have hdApi : Api.dispatch env req
        = ⟨none, (Api.extract_pdf_text env.pdf env.ocr).1, "", .file, [.pdf],
           true, true, none⟩ := by
      rw [Api.dispatch_eq_api, if_pos hft, hf]
      exact Api.dispatchFile_pdf_api env f hpdf
    have hp2 := Api.process_skip_eq_api env req ha (by rw [hdApi])
      (by rw [hdApi]; simp [hext])
    rw [hdApi, hext] at hp2
    rw [hp2]

/-- An environment whose URL fetch times out. -/
def envFetchErr : Env :=
  ⟨⟨Except.ok "", Except.ok [0]⟩, ocrBlank, ⟨Except.ok 0⟩, Except.ok [],
   Except.ok "", fun _ => Except.error "timeout", fun _ => Except.error "down", "t"⟩

/-- A request carrying only a URL. -/
def reqUrl : Request := ⟨none, some "http://x", none, none, none, none, none⟩

/-- Witness for the amended C4: a fetch failure is reported with a
non-empty message, while an app-variant PDF extraction failure yields the
empty-summary, empty-error response. -/
theorem c4_failure_reporting_amended_witness :
    (App.process envFetchErr reqUrl []).result
      = Except.ok ⟨"", "⚠️ Error fetching URL: timeout", []⟩ ∧
    (App.process envPdfFault reqPdfFile []).result = Except.ok ⟨"", "", []⟩ := by
  refine ⟨?_, ?_⟩
  · exact ((c4_failure_reporting_amended envFetchErr reqUrl [] []).2.1
      "http://x" "timeout" (by decide) rfl (by decide) rfl).1
  · exact (c4_failure_reporting_amended envPdfFault reqPdfFile [] []).2.2.2.1
      ⟨"scan.pdf"⟩ rfl (by decide) (by decide) (by decide)
